import Mathlib

/-!
Shallow embedding of the `ffmpeg_flow` stream supervisor (source files
`storage.py` and `stream_controller.py`) together with theorems settling the
specification claims about it.

Modelling conventions:
* Python dicts are insertion-ordered association lists (`List (k × v)`); the
  store document keeps unique keys, as a real dict does.
* The persisted JSON file is modelled by the parsed document; the parse step
  itself is exposed as an `Except` argument where a claim is about parsing.
* Filesystem and OS effects (file hashes, file existence, process table,
  write failures) are explicit function parameters.
-/

namespace Storage

/-- One persisted binding. `StorageManager.set_binding` (storage.py lines
84-90) writes exactly these fields, in this insertion order: `url`,
`water_mark` (the insertion-ordered dict `{wm_uid: path}`), `hls_no_wm`,
`hls_wm`, `status`. -/
structure Binding where
  url : Option String
  water_mark : List (String × String)
  hls_no_wm : String
  hls_wm : String
  status : String
deriving DecidableEq

/-- The persisted store document: a Python dict keyed by stream `uid`,
modelled as an insertion-ordered association list. -/
abbrev Doc := List (String × Binding)

/-- Embeds `StorageManager._load` (storage.py lines 51-56).  The file-read
and JSON-parse outcome is passed in as an `Except`; on a `JSONDecodeError`
the method returns `{}` — the empty document. -/
def load : Except String Doc → Doc
  | .ok d => d
  | .error _ => []

/-- Embeds `StorageManager.set_binding` (storage.py lines 68-92): both
playlist paths are derived from `uid` alone, then the binding is stored under
`uid` (dict assignment: replaced in place if the key exists, appended
otherwise). -/
def set_binding (hls_output_dir : String) (d : Doc) (uid : String)
    (url : Option String) (watermark_paths : List (String × String))
    (status : String) : Doc :=
  let b : Binding :=
    { url := url
      water_mark := watermark_paths
      hls_no_wm := hls_output_dir ++ "/" ++ uid ++ "_no_wm.m3u8"
      hls_wm := hls_output_dir ++ "/" ++ uid ++ "_wm.m3u8"
      status := status }
  if (d.lookup uid).isSome then d.map (fun p => if p.1 == uid then (p.1, b) else p)
  else d ++ [(uid, b)]

/-- Embeds `StorageManager.update_status` (storage.py lines 188-194): if
`uid` is a key of the loaded document, its `status` field is overwritten in
place and the document saved, returning `True`; otherwise nothing is saved
and the method returns `False`. -/
def update_status (d : Doc) (uid s : String) : Doc × Bool :=
  if (d.lookup uid).isSome then
    (d.map (fun p => if p.1 == uid then (p.1, { p.2 with status := s }) else p), true)
  else (d, false)

/-- Embeds `StorageManager.update_url` (storage.py lines 141-145):
`data[uid]["url"] = url` raises `KeyError` when `uid` is absent, before
`_save` runs; on success the url is overwritten and the document saved. -/
def update_url (d : Doc) (uid url : String) : Except String (Doc × Bool) :=
  match d.lookup uid with
  | none => .error "KeyError"
  | some _ =>
    .ok (d.map (fun p => if p.1 == uid then (p.1, { p.2 with url := some url }) else p), true)

/-- Embeds `StorageManager.update_watermark` (storage.py lines 96-109):
returns `False` without saving when `data.get(uid)` is falsy (absent),
otherwise replaces the whole `water_mark` dict and saves. -/
def update_watermark (d : Doc) (uid : String)
    (watermark_paths : List (String × String)) : Doc × Bool :=
  match d.lookup uid with
  | none => (d, false)
  | some _ =>
    (d.map (fun p => if p.1 == uid then (p.1, { p.2 with water_mark := watermark_paths }) else p),
     true)

/-- Embeds `StorageManager.clear_watermarks` (storage.py lines 199-214):
returns `False` when `uid` is absent; otherwise deletes every stored
watermark file that is truthy and exists (third component: the removed
paths), empties the `water_mark` dict and saves.  `fs_exists` models
`os.path.exists`. -/
def clear_watermarks (fs_exists : String → Bool) (d : Doc) (uid : String) :
    Doc × Bool × List String :=
  match d.lookup uid with
  | none => (d, false, [])
  | some b =>
    let removed := (b.water_mark.map Prod.snd).filter (fun p => !(p == "") && fs_exists p)
    (d.map (fun q => if q.1 == uid then (q.1, { q.2 with water_mark := [] }) else q),
     true, removed)

/-- Embeds `StorageManager.stop_all_streams` (storage.py lines 29-37): every
binding whose status is not `"stopped"` gets status `"stopped"`; the
document is saved only if something changed (the resulting persisted content
is the same either way). -/
def stop_all_streams (d : Doc) : Doc :=
  d.map (fun p => (p.1, if p.2.status != "stopped" then { p.2 with status := "stopped" } else p.2))

/-- Embeds `StorageManager.__init__` (storage.py lines 17-24): `_ensure_file`
writes `{}` when the storage file does not exist, then `stop_all_streams`
loads the (possibly corrupt) file and rewrites every status to
`"stopped"`. -/
def storageInit (file_exists : Bool) (raw : Except String Doc) : Doc :=
  stop_all_streams (if file_exists then load raw else [])

/-- JSON string escaping as used by `json.dump` for the characters that a
store document can contain (quote, backslash and the common control
characters); other characters are emitted verbatim. -/
def escChar (c : Char) : String :=
  if c = '"' then "\\\""
  else if c = '\\' then "\\\\"
  else if c = '\n' then "\\n"
  else if c = '\t' then "\\t"
  else if c = '\r' then "\\r"
  else String.singleton c

/-- Escape a whole string, character by character. -/
def jsonEscape (s : String) : String :=
  String.join (s.data.map escChar)

/-- A JSON string literal. -/
def jstr (s : String) : String := "\"" ++ jsonEscape s ++ "\""

/-- `null` for Python `None`, a JSON string otherwise. -/
def joptStr : Option String → String
  | none => "null"
  | some s => jstr s

/-- Serialization of the `water_mark` dict exactly as `json.dump(..., indent=2)`
prints it at nesting depth 2 inside `_save` (storage.py lines 61-63). -/
def serializeWm (wm : List (String × String)) : String :=
  if wm.isEmpty then "\x7b\x7d"
  else
    "\x7b\n"
      ++ String.intercalate ",\n"
          (wm.map (fun p => "      " ++ jstr p.1 ++ ": " ++ jstr p.2))
      ++ "\n    \x7d"

/-- Serialization of one binding object at nesting depth 1, fields in their
insertion order. -/
def serializeBinding (b : Binding) : String :=
  "\x7b\n"
    ++ "    " ++ jstr "url" ++ ": " ++ joptStr b.url ++ ",\n"
    ++ "    " ++ jstr "water_mark" ++ ": " ++ serializeWm b.water_mark ++ ",\n"
    ++ "    " ++ jstr "hls_no_wm" ++ ": " ++ jstr b.hls_no_wm ++ ",\n"
    ++ "    " ++ jstr "hls_wm" ++ ": " ++ jstr b.hls_wm ++ ",\n"
    ++ "    " ++ jstr "status" ++ ": " ++ jstr b.status
    ++ "\n  \x7d"

/-- Embeds `StorageManager._save` (storage.py lines 61-63): the byte content
`json.dump(data, f, indent=2)` writes for a document, keys in insertion
order.  Equal documents serialize to equal bytes. -/
def serializeDoc (d : Doc) : String :=
  if d.isEmpty then "\x7b\x7d"
  else
    "\x7b\n"
      ++ String.intercalate ",\n"
          (d.map (fun p => "  " ++ jstr p.1 ++ ": " ++ serializeBinding p.2))
      ++ "\n\x7d"

end Storage

namespace Controller

/-- Embeds the loop body of `FFmpegProcessManager._build_filter`
(stream_controller.py lines 228-238) before the final trailing-`;` strip:
`i` is the running enumeration index, `last` the label of the running
composite, and the list the `watermark_paths.values()` still to process (the
loop never reads the path itself, only the index). -/
def build_filterAux : Nat → String → List String → String × String
  | _, last, [] => ("", last)
  | i, last, _ :: rest =>
    let r := build_filterAux (i + 1) ("[v" ++ toString i ++ "]") rest
    ("[" ++ toString (i + 1) ++ ":v]scale=iw:ih[wm" ++ toString i ++ "];"
       ++ last ++ "[wm" ++ toString i ++ "]overlay=0:0:format=auto[v" ++ toString i ++ "];"
       ++ r.1,
     r.2)

/-- Embeds `FFmpegProcessManager._build_filter` (stream_controller.py lines
228-238): builds the filter string over the watermark paths in dict order,
starting from composite label `[0:v]`, then strips one trailing `;`
(`filters.endswith(";")` / `filters[:-1]`, expressed on the character
list). -/
def build_filter (wm_paths : List String) : String × String :=
  let r := build_filterAux 0 "[0:v]" wm_paths
  (if r.1.data.getLast? == some ';' then String.mk r.1.data.dropLast else r.1, r.2)

/-- Label of the running composite entering stage `i` of the filter chain:
`[0:v]` for the first stage, `[v(i-1)]` afterwards. -/
def labelIn : Nat → String
  | 0 => "[0:v]"
  | j + 1 => "[v" ++ toString j ++ "]"

/-- The two filter statements stage `i` contributes, separator included:
scale watermark input `i+1`, then overlay it at `0:0` onto the running
composite `labelIn i`, producing `[v i]`. -/
def chainStage (i : Nat) : String :=
  "[" ++ toString (i + 1) ++ ":v]scale=iw:ih[wm" ++ toString i ++ "];"
    ++ labelIn i ++ "[wm" ++ toString i ++ "]overlay=0:0:format=auto[v" ++ toString i ++ "];"

/-- Output frame size of the `scale=iw:ih` stage `_build_filter` emits, per
the external transcoding tool's documented filter protocol (spec section 6
boundary): in a `scale` filter the variables `iw`/`ih` denote the width and
height of the stream fed into that scale stage itself — here the watermark —
so the stage maps an input of size `s` to size `s` (an identity scale), not
to the source video's frame size. -/
def scaleStageOutSize (s : Nat × Nat) : Nat × Nat := s

/-- Embeds `FFmpegProcessManager._hls_output_args` (stream_controller.py
lines 243-261). -/
def hls_output_args (playlist : String) (gpu : Bool) : List String :=
  (if gpu then ["-c:v", "h264_nvenc", "-preset", "p2", "-cq", "19"]
   else ["-c:v", "libx264", "-preset", "medium", "-crf", "20"])
    ++ ["-r", "10", "-b:v", "3000k", "-maxrate", "4000k", "-bufsize", "10000k",
        "-c:a", "aac", "-f", "hls", "-hls_time", "5", "-hls_list_size", "5",
        "-hls_flags", "delete_segments", playlist]

/-- Embeds the command construction of `FFmpegProcessManager._start_ffmpeg`
(stream_controller.py lines 150-174): primary input `url`, one `-i` per
watermark path in dict order, then either the watermark rendition (filter
graph + `hls_wm` output) followed by the plain rendition, or the plain
rendition alone when there are no watermarks.  `gpu` is
`self.use_gpu and self.has_gpu`. -/
def start_cmd (ffmpeg_path url : String) (watermarks : List (String × String))
    (hls_no_wm hls_wm : String) (gpu : Bool) : List String :=
  let wm_paths := watermarks.map Prod.snd
  let base := [ffmpeg_path, "-loglevel", "error", "-i", url]
    ++ wm_paths.flatMap (fun wm => ["-i", wm])
  if wm_paths.isEmpty then
    base ++ ["-map", "0:v", "-map", "0:a?"] ++ hls_output_args hls_no_wm gpu
  else
    let fc := build_filter wm_paths
    base ++ ["-filter_complex", fc.1, "-map", fc.2, "-map", "0:a?"]
      ++ hls_output_args hls_wm gpu
      ++ ["-map", "0:v", "-map", "0:a?"] ++ hls_output_args hls_no_wm gpu

/-- The arguments a transcoding-tool command designates as inputs: every
token following a `-i` token. -/
def extractInputs : List String → List String
  | [] => []
  | "-i" :: x :: rest => x :: extractInputs rest
  | _ :: rest => extractInputs rest

end Controller

namespace Controller

/-- State of the controller's process registry for one `uid`, as
`_auto_manager_loop` line 76 inspects it: `none` — `uid not in
self.processes`; `some none` — handle present and `poll()` is `None`
(running); `some (some c)` — handle present, process exited with code `c`. -/
abbrev ProcState := Option (Option Int)

/-- The line-76 test `uid not in self.processes or self.processes[uid].poll()
is not None`: the worker process is missing or has exited. -/
def procMissing : ProcState → Bool
  | none => true
  | some none => false
  | some (some _) => true

/-- Embeds the per-`uid` body of `FFmpegProcessManager._auto_manager_loop`
(stream_controller.py lines 52-101), restricted to its store status writes.
Returns the list of statuses written for the `uid`, in order, or `.error ()`
when a `sm.update_status` file write raises an `OSError` (those calls sit
directly in the loop body, outside any per-uid handler, so the exception
propagates; `write_fails` models such a failure for this `uid`).
`spawn_raises` models `subprocess.Popen` raising inside `_start_ffmpeg`,
whose own `try/except` (lines 187-189) catches it and writes
`need_restart`; lines 143-148 likewise write `need_restart` and skip the
spawn when the registry still holds a live process for the `uid`.  The
`stopped` branch (lines 80-96) and unknown statuses write nothing (the
`else` clause, lines 98-101, is commented out in the source). -/
def handle_uid (write_fails spawn_raises : Bool) (status : String)
    (proc : ProcState) : Except Unit (List String) :=
  if status == "need_start" then
    if write_fails then .error ()
    else
      .ok (["starting"]
        ++ (if proc == some none then ["need_restart"]
            else if spawn_raises then ["need_restart"] else [])
        ++ ["started"])
  else if status == "need_stop" then
    if write_fails then .error () else .ok ["stopping", "stopped"]
  else if status == "need_restart" then
    if write_fails then .error ()
    else
      .ok (["starting"] ++ (if spawn_raises then ["need_restart"] else []) ++ ["started"])
  else if status == "started" then
    if procMissing proc then
      if write_fails then .error () else .ok ["need_restart"]
    else .ok []
  else .ok []

/-- Embeds one tick of `FFmpegProcessManager._auto_manager_loop`
(stream_controller.py lines 44-107): the `for uid, info in bindings.items()`
loop runs inside a single `try`, so the first per-uid exception aborts the
remaining bindings of the tick and is caught by the loop-level `except`
(lines 105-107), which sleeps and continues with the next tick.  Result:
(uids whose handling was entered, status writes `(uid, status)` in order,
whether the tick was cut short by a caught exception). -/
def auto_manager_tick (write_fails spawn_raises : String → Bool)
    (procs : String → ProcState) :
    List (String × String) → List String × List (String × String) × Bool
  | [] => ([], [], false)
  | (uid, st) :: rest =>
    match handle_uid (write_fails uid) (spawn_raises uid) st (procs uid) with
    | .ok ws =>
      let r := auto_manager_tick write_fails spawn_raises procs rest
      (uid :: r.1, ws.map (fun s => (uid, s)) ++ r.2.1, r.2.2)
    | .error _ => ([uid], [], true)

/-- One OS process as `psutil.process_iter(['pid', 'name', 'cmdline'])`
yields it to `_kill_unknown_ffmpeg`. -/
structure ProcInfo where
  pid : Nat
  name : Option String
  cmdline : List String
deriving DecidableEq

/-- Whether `pre` is a prefix of `l`, on character lists. -/
def isPrefixList : List Char → List Char → Bool
  | [], _ => true
  | _ :: _, [] => false
  | a :: as, b :: bs => a == b && isPrefixList as bs

/-- Whether `needle` occurs as a contiguous subsequence of `hay`. -/
def containsSeq (needle : List Char) : List Char → Bool
  | [] => isPrefixList needle []
  | c :: t => isPrefixList needle (c :: t) || containsSeq needle t

/-- Python's substring test `needle in hay`. -/
def strContains (hay needle : String) : Bool :=
  containsSeq needle.data hay.data

/-- Python's `str.lower()`, character by character. -/
def strLower (s : String) : String := String.mk (s.data.map Char.toLower)

/-- Python's `" ".join(cmdline)` (also the `""` default for an empty
cmdline). -/
def joinSpace (l : List String) : String := String.intercalate " " l

/-- Embeds `FFmpegProcessManager._kill_unknown_ffmpeg` (stream_controller.py
lines 112-135): among all OS processes, terminate exactly those with a
truthy name containing `"ffmpeg"` (case-insensitive) whose joined command
line contains none of the currently valid `uid`s.  Returns the terminated
processes. -/
def kill_unknown_ffmpeg (procs : List ProcInfo) (valid_uids : List String) :
    List ProcInfo :=
  procs.filter (fun p =>
    let name := p.name.getD ""
    let cmdline := joinSpace p.cmdline
    !(name == "") && strContains (strLower name) "ffmpeg"
      && !(valid_uids.any (fun uid => strContains cmdline uid)))

end Controller

namespace Controller

/-- Python dict equality `a == b` on insertion-ordered association lists
with unique keys: same keys with equal values, order-insensitive. -/
def dictBeq (a b : List (String × String)) : Bool :=
  a.all (fun p => b.lookup p.1 == some p.2) && b.all (fun p => a.lookup p.1 == some p.2)

/-- Python's `d.get(k)` on the md5 cache (values may themselves be `None`,
which `get` also returns for an absent key). -/
def pyGetOpt (m : List (String × Option String)) (k : String) : Option String :=
  match m.lookup k with
  | some v => v
  | none => none

/-- The change test of `StreamController.monitor_watermarks`
(stream_controller.py lines 393-408) for one `uid`: the url or the
watermark dict differs from the cached snapshot, or — only when both are
unchanged — some watermark file's recomputed md5 differs from the cached
one (`fs` models `_file_md5`, lines 376-381: `none` for an absent file).
`cached_paths` is `self.wm_paths_cache.get(uid)` (`none` when the `uid` was
never snapshotted). -/
def mon_changed (fs : String → Option String)
    (watermarks : List (String × String)) (url : Option String)
    (cached_paths : Option (List (String × String)))
    (cached_md5 : List (String × Option String))
    (cached_url : Option String) : Bool :=
  if url != cached_url
      || (match cached_paths with
          | none => true
          | some cp => !dictBeq watermarks cp) then
    true
  else
    watermarks.any (fun p => fs p.2 != pyGetOpt cached_md5 p.1)

/-- Outcome of evaluating one `uid` in `monitor_watermarks`. -/
structure MonEval where
  changed : Bool
  restartIssued : Bool
  newPaths : Option (List (String × String))
  newMd5 : List (String × Option String)
  newUrl : Option String
deriving DecidableEq

/-- Embeds one `uid`'s evaluation in `StreamController.monitor_watermarks`
(stream_controller.py lines 386-417): on a detected change, `need_restart`
is written iff the current status is none of `need_stop`/`stopped`/
`stopping` (line 413), and the three caches are refreshed to the freshly
observed paths, md5s and url (lines 415-417); without a detected change
nothing is written and the caches are left as they were. -/
def monitor_uid (fs : String → Option String)
    (watermarks : List (String × String)) (url : Option String)
    (status : String)
    (cached_paths : Option (List (String × String)))
    (cached_md5 : List (String × Option String))
    (cached_url : Option String) : MonEval :=
  if mon_changed fs watermarks url cached_paths cached_md5 cached_url then
    { changed := true
      restartIssued := !(status == "need_stop" || status == "stopped" || status == "stopping")
      newPaths := some watermarks
      newMd5 := watermarks.map (fun p => (p.1, fs p.2))
      newUrl := url }
  else
    { changed := false
      restartIssued := false
      newPaths := cached_paths
      newMd5 := cached_md5
      newUrl := cached_url }

end Controller

section Helpers

open Storage Controller

theorem strFoldlAppend (l : List String) :
    ∀ x y : String, l.foldl (fun r s => r ++ s) (x ++ y) = x ++ l.foldl (fun r s => r ++ s) y := by
  induction l with
  | nil => intro x y; rfl
  | cons a t ih =>
    intro x y
    show t.foldl (fun r s => r ++ s) (x ++ y ++ a) = x ++ t.foldl (fun r s => r ++ s) (y ++ a)
    rw [String.append_assoc, ih]

theorem strJoin_cons (a : String) (l : List String) :
    String.join (a :: l) = a ++ String.join l := by
  show l.foldl (fun r s => r ++ s) ("" ++ a) = a ++ l.foldl (fun r s => r ++ s) ""
  rw [String.empty_append, ← String.append_empty a, strFoldlAppend, String.append_empty]

theorem build_filterAux_eq (wms : List String) :
    ∀ i : Nat,
      build_filterAux i (labelIn i) wms
        = (String.join ((List.range' i wms.length).map chainStage), labelIn (i + wms.length)) := by
  induction wms with
  | nil => intro i; simp [build_filterAux, String.join, List.range']
  | cons a rest ih =>
    intro i
    have hlab : ("[v" ++ toString i ++ "]") = labelIn (i + 1) := rfl
    show ("[" ++ toString (i + 1) ++ ":v]scale=iw:ih[wm" ++ toString i ++ "];"
         ++ labelIn i ++ "[wm" ++ toString i ++ "]overlay=0:0:format=auto[v" ++ toString i ++ "];"
         ++ (build_filterAux (i + 1) ("[v" ++ toString i ++ "]") rest).1,
         (build_filterAux (i + 1) ("[v" ++ toString i ++ "]") rest).2)
      = _
    rw [hlab, ih (i + 1)]
    have hr : List.range' i (rest.length + 1) = i :: List.range' (i + 1) rest.length :=
      List.range'_succ i (rest.length) 1
    simp only [List.length_cons, hr, List.map_cons, strJoin_cons, Prod.mk.injEq]
    constructor
    · simp only [chainStage, String.append_assoc]
    · show labelIn (i + 1 + rest.length) = labelIn (i + (rest.length + 1))
      have : i + 1 + rest.length = i + (rest.length + 1) := by omega
      rw [this]

end Helpers

section Helpers2
open Storage Controller

theorem extractInputs_cons_ne {x : String} (l : List String) (hx : x ≠ "-i") :
    extractInputs (x :: l) = extractInputs l := by
  simp [extractInputs, hx]

theorem extractInputs_append_ne (l m : List String) (h : ∀ x ∈ l, x ≠ "-i") :
    extractInputs (l ++ m) = extractInputs m := by
  induction l with
  | nil => rfl
  | cons a t ih =>
    rw [List.cons_append, extractInputs_cons_ne _ (h a (List.mem_cons_self a t))]
    exact ih (fun x hx => h x (List.mem_cons_of_mem a hx))

theorem extractInputs_none (l : List String) (h : ∀ x ∈ l, x ≠ "-i") :
    extractInputs l = [] := by
  have := extractInputs_append_ne l [] h
  simpa using this

theorem extractInputs_flatMap (paths : List String) (m : List String) :
    extractInputs (paths.flatMap (fun wm => ["-i", wm]) ++ m)
      = paths ++ extractInputs m := by
  induction paths with
  | nil => rfl
  | cons w rest ih =>
    show extractInputs ("-i" :: w :: (rest.flatMap (fun wm => ["-i", wm]) ++ m)) = _
    simp only [extractInputs, ih, List.cons_append]

end Helpers2

section Helpers3
open Storage Controller

theorem ne_dash_i_of_head {s : String} (h : s.data.head? = some '[') : s ≠ "-i" := by
  intro he
  rw [he] at h
  exact absurd h (by decide)

theorem build_filter_fst_data (w : String) (rest : List String) :
    ∃ t, (build_filterAux 0 "[0:v]" (w :: rest)).1.data = '[' :: '1' :: ':' :: t := by
  have h := build_filterAux_eq (w :: rest) 0
  have h1 : (build_filterAux 0 "[0:v]" (w :: rest)).1
      = String.join (List.map chainStage (List.range' 0 (w :: rest).length)) := by
    rw [show ("[0:v]" : String) = labelIn 0 from rfl, h]
  have hrange : List.range' 0 (w :: rest).length = 0 :: List.range' 1 rest.length := by
    simp only [List.length_cons]
    exact List.range'_succ 0 rest.length 1
  refine ⟨"v]scale=iw:ih[wm0];[0:v][wm0]overlay=0:0:format=auto[v0];".data
      ++ (String.join (List.map chainStage (List.range' 1 rest.length))).data, ?_⟩
  rw [h1, hrange, List.map_cons, strJoin_cons, String.data_append]
  rw [show (chainStage 0).data
      = '[' :: '1' :: ':' :: "v]scale=iw:ih[wm0];[0:v][wm0]overlay=0:0:format=auto[v0];".data
    from rfl]
  rfl

theorem build_filter_head (w : String) (rest : List String) :
    (build_filter (w :: rest)).1.data.head? = some '[' := by
  obtain ⟨t, ht⟩ := build_filter_fst_data w rest
  show (if (build_filterAux 0 "[0:v]" (w :: rest)).1.data.getLast? == some ';' then
      String.mk ((build_filterAux 0 "[0:v]" (w :: rest)).1.data.dropLast)
    else (build_filterAux 0 "[0:v]" (w :: rest)).1).data.head? = some '['
  by_cases hc : ((build_filterAux 0 "[0:v]" (w :: rest)).1.data.getLast? == some ';') = true
  · rw [if_pos hc]
    show ((build_filterAux 0 "[0:v]" (w :: rest)).1.data.dropLast).head? = some '['
    rw [ht]
    rfl
  · rw [if_neg hc, ht]
    rfl

theorem labelIn_succ_ne (k : Nat) : labelIn (k + 1) ≠ "-i" := by
  apply ne_dash_i_of_head
  show ("[v" ++ toString k ++ "]").data.head? = some '['
  rw [String.data_append, String.data_append]
  rfl

theorem hls_output_args_split (playlist : String) (gpu : Bool) :
    hls_output_args playlist gpu
      = ((if gpu then ["-c:v", "h264_nvenc", "-preset", "p2", "-cq", "19"]
          else ["-c:v", "libx264", "-preset", "medium", "-crf", "20"])
        ++ ["-r", "10", "-b:v", "3000k", "-maxrate", "4000k", "-bufsize", "10000k",
            "-c:a", "aac", "-f", "hls", "-hls_time", "5", "-hls_list_size", "5",
            "-hls_flags", "delete_segments"]) ++ [playlist] := by
  cases gpu <;> rfl

theorem hls_output_args_ne (playlist : String) (gpu : Bool) (hp : playlist ≠ "-i") :
    ∀ x ∈ hls_output_args playlist gpu, x ≠ "-i" := by
  intro x hx he
  subst he
  rw [hls_output_args_split] at hx
  rcases List.mem_append.mp hx with h | h
  · revert h
    cases gpu <;> decide
  · exact hp (List.mem_singleton.mp h).symm

end Helpers3

section Helpers4
open Storage Controller

theorem lookup_self {β : Type} (l : List (String × β))
    (hnd : (l.map Prod.fst).Nodup) :
    ∀ p ∈ l, l.lookup p.1 = some p.2 := by
  induction l with
  | nil => intro p hp; cases hp
  | cons q t ih =>
    have hnd' : (q.1 :: t.map Prod.fst).Nodup := by simpa using hnd
    obtain ⟨hq, hnt⟩ := List.nodup_cons.mp hnd'
    intro p hp
    rcases List.mem_cons.mp hp with rfl | hpt
    · rw [show (p :: t) = ((p.1, p.2) :: t) from by rfl]
      rw [List.lookup_cons]
      simp
    · have hne : p.1 ≠ q.1 := by
        intro he
        exact hq (he ▸ List.mem_map_of_mem Prod.fst hpt)
      rw [show (q :: t) = ((q.1, q.2) :: t) from by rfl, List.lookup_cons]
      rw [show (p.1 == q.1) = false from beq_false_of_ne hne]
      exact ih hnt p hpt

theorem lookup_map_update (f : Storage.Binding → Storage.Binding) (uid : String) :
    ∀ d : Storage.Doc,
      (d.map (fun p => if p.1 == uid then (p.1, f p.2) else p)).lookup uid
        = (d.lookup uid).map f := by
  intro d
  induction d with
  | nil => rfl
  | cons q t ih =>
    by_cases hq : (q.1 == uid) = true
    · simp only [List.map_cons, if_pos hq]
      rw [show ((q.1, f q.2) :: t.map (fun p => if p.1 == uid then (p.1, f p.2) else p))
            = ((q.1, f q.2) :: t.map (fun p => if p.1 == uid then (p.1, f p.2) else p)) from rfl]
      rw [List.lookup_cons]
      rw [show (q :: t) = ((q.1, q.2) :: t) from rfl, List.lookup_cons]
      have : (uid == q.1) = true := by
        rw [beq_iff_eq] at hq ⊢
        exact hq.symm
      simp [this]
    · simp only [List.map_cons, if_neg hq]
      rw [show (q :: t).lookup uid = match uid == q.1 with
            | true => some q.2 | false => t.lookup uid from rfl]
      have hne : q.1 ≠ uid := by simpa [beq_iff_eq] using hq
      have : (uid == q.1) = false := beq_false_of_ne (Ne.symm hne)
      rw [this]
      rw [show (q :: t.map (fun p => if p.1 == uid then (p.1, f p.2) else p)).lookup uid
            = match uid == q.1 with
              | true => some q.2
              | false => (t.map (fun p => if p.1 == uid then (p.1, f p.2) else p)).lookup uid
            from rfl]
      rw [this]
      exact ih

end Helpers4

section Helpers5
open Storage Controller

theorem update_status_map_idem (uid s : String) :
    ∀ d : Storage.Doc,
      (d.map (fun p => if p.1 == uid then (p.1, { p.2 with status := s }) else p)).map
          (fun p => if p.1 == uid then (p.1, { p.2 with status := s }) else p)
        = d.map (fun p => if p.1 == uid then (p.1, { p.2 with status := s }) else p) := by
  intro d
  induction d with
  | nil => rfl
  | cons q t ih =>
    simp only [List.map_cons, ih]
    by_cases hq : (q.1 == uid) = true
    · simp [hq]
    · simp [hq]

theorem stop_all_streams_lookup (d : Storage.Doc) (uid : String) (b : Storage.Binding)
    (h : (Storage.stop_all_streams d).lookup uid = some b) : b.status = "stopped" := by
  induction d with
  | nil => cases h
  | cons q t ih =>
    rw [show Storage.stop_all_streams (q :: t)
        = (q.1, if q.2.status != "stopped" then { q.2 with status := "stopped" } else q.2)
          :: Storage.stop_all_streams t from rfl] at h
    rw [List.lookup_cons] at h
    by_cases hq : (uid == q.1) = true
    · rw [hq] at h
      have hb : b = if q.2.status != "stopped" then { q.2 with status := "stopped" } else q.2 :=
        (Option.some.injEq _ _ ▸ h).symm
      by_cases hs : (q.2.status != "stopped") = true
      · rw [if_pos hs] at hb
        rw [hb]
      · rw [if_neg hs] at hb
        rw [hb]
        simpa using hs
    · rw [show (uid == q.1) = false from by simpa using hq] at h
      exact ih h

theorem dictBeq_self (l : List (String × String))
    (hnd : (l.map Prod.fst).Nodup) : dictBeq l l = true := by
  unfold dictBeq
  rw [Bool.and_eq_true]
  constructor <;>
    (rw [List.all_eq_true]
     intro p hp
     rw [lookup_self l hnd p hp]
     simp)

theorem map_fst_md5 (fs : String → Option String) (l : List (String × String)) :
    (l.map (fun p => (p.1, fs p.2))).map Prod.fst = l.map Prod.fst := by
  induction l with
  | nil => rfl
  | cons q t ih => simp [ih]

theorem mon_changed_fresh (fs : String → Option String)
    (wms : List (String × String)) (url : Option String)
    (hnd : (wms.map Prod.fst).Nodup) :
    mon_changed fs wms url (some wms) (wms.map (fun p => (p.1, fs p.2))) url = false := by
  unfold mon_changed
  rw [if_neg]
  · rw [List.any_eq_false]
    intro p hp
    have : (wms.map (fun p => (p.1, fs p.2))).lookup p.1 = some (fs p.2) := by
      have hm : (p.1, fs p.2) ∈ wms.map (fun p => (p.1, fs p.2)) :=
        List.mem_map_of_mem _ hp
      have := lookup_self (wms.map (fun p => (p.1, fs p.2)))
        (by rw [map_fst_md5]; exact hnd) (p.1, fs p.2) hm
      simpa using this
    simp [pyGetOpt, this]
  · intro hcon
    rcases Bool.or_eq_true _ _ |>.mp hcon with h | h
    · simp at h
    · rw [show (match some wms with
          | none => true
          | some cp => !dictBeq wms cp) = !dictBeq wms wms from rfl] at h
      rw [dictBeq_self wms hnd] at h
      simp at h

end Helpers5

/-- C1: the claim evaluated on the code at its failing input.  When the
persisted document is malformed (JSON parse failure), `StorageManager._load`
silently returns the empty document, so a subsequent Binding Store operation
behaves as if no bindings exist — here `update_status` on a previously
stored `uid` finds nothing and reports `False` — instead of failing loudly
or returning the last good copy. -/
theorem c1_load_silently_empty :
    Storage.load (Except.error "JSONDecodeError") = []
    ∧ Storage.update_status (Storage.load (Except.error "JSONDecodeError")) "u1" "need_stop"
        = ([], false) := by
  decide

/-- C2 counterexample: a single reconciliation tick that observes a
`started` binding with its worker process missing already writes
`need_restart` — there is no threshold of three consecutive observations. -/
theorem c2_single_observation_counterexample :
    Controller.auto_manager_tick (fun _ => false) (fun _ => false) (fun _ => none)
        [("u1", "started")]
      = (["u1"], [("u1", "need_restart")], false) := by
  decide

/-- C2 (amended): for a binding with status `started`, any single tick that
observes the worker missing or exited immediately writes `need_restart`;
the code keeps no failure counter and has no threshold. -/
theorem c2_immediate_restart (p : Controller.ProcState)
    (h : Controller.procMissing p = true) :
    Controller.handle_uid false false "started" p = .ok ["need_restart"] := by
  match p with
  | none => rfl
  | some none => simp [Controller.procMissing] at h
  | some (some c) => rfl

/-- Witness for `c2_immediate_restart` at the concrete registry state
`none` (uid absent from `self.processes`). -/
theorem c2_immediate_restart_witness :
    Controller.procMissing none = true
    ∧ Controller.handle_uid false false "started" none = .ok ["need_restart"] :=
  ⟨by decide, c2_immediate_restart none (by decide)⟩

/-- C3: the claim evaluated on the code at its failing input.  With two
bindings `u1` (status `started`, worker missing) and `u2` (status
`need_start`), and the store write for `u1` raising an OSError, the tick
handles `u1` only: the exception escapes the per-uid body into the
loop-level `except`, `u2` is never processed in that tick (no statuses are
written at all), and the loop merely survives to the next tick. -/
theorem c3_tick_aborts_on_uid_failure :
    Controller.auto_manager_tick (fun u => u == "u1") (fun _ => false) (fun _ => none)
        [("u1", "started"), ("u2", "need_start")]
      = (["u1"], [], true)
    ∧ "u2" ∉ (Controller.auto_manager_tick (fun u => u == "u1") (fun _ => false)
        (fun _ => none) [("u1", "started"), ("u2", "need_start")]).1 := by
  constructor
  · decide
  · decide

/-- C9: for a `uid` absent from the store, `update_url` raises `KeyError`
before any save — the persisted document is untouched — whereas
`update_status`, `update_watermark` and `clear_watermarks` return `False`
(again without saving) instead of raising. -/
theorem c9_absent_uid_behaviour (d : Storage.Doc) (uid url s : String)
    (wms : List (String × String)) (fs : String → Bool)
    (h : d.lookup uid = none) :
    Storage.update_url d uid url = .error "KeyError"
    ∧ Storage.update_status d uid s = (d, false)
    ∧ Storage.update_watermark d uid wms = (d, false)
    ∧ Storage.clear_watermarks fs d uid = (d, false, []) := by
  refine ⟨?_, ?_, ?_, ?_⟩ <;>
    simp [Storage.update_url, Storage.update_status, Storage.update_watermark,
      Storage.clear_watermarks, h]

/-- Witness for `c9_absent_uid_behaviour` on a store holding only `"u0"`,
queried for the absent `"u1"`. -/
theorem c9_absent_uid_behaviour_witness :
    ([(("u0" : String), (⟨some "rtsp://cam", [], "n", "w", "stopped"⟩ : Storage.Binding))] :
        Storage.Doc).lookup "u1" = none
    ∧ (Storage.update_url [("u0", ⟨some "rtsp://cam", [], "n", "w", "stopped"⟩)] "u1" "rtsp://new"
          = .error "KeyError"
        ∧ Storage.update_status [("u0", ⟨some "rtsp://cam", [], "n", "w", "stopped"⟩)] "u1" "need_start"
          = ([("u0", ⟨some "rtsp://cam", [], "n", "w", "stopped"⟩)], false)
        ∧ Storage.update_watermark [("u0", ⟨some "rtsp://cam", [], "n", "w", "stopped"⟩)] "u1" [("a", "p.png")]
          = ([("u0", ⟨some "rtsp://cam", [], "n", "w", "stopped"⟩)], false)
        ∧ Storage.clear_watermarks (fun _ => true) [("u0", ⟨some "rtsp://cam", [], "n", "w", "stopped"⟩)] "u1"
          = ([("u0", ⟨some "rtsp://cam", [], "n", "w", "stopped"⟩)], false, [])) :=
  ⟨by decide,
    c9_absent_uid_behaviour [("u0", ⟨some "rtsp://cam", [], "n", "w", "stopped"⟩)]
      "u1" "rtsp://new" "need_start" [("a", "p.png")] (fun _ => true) (by decide)⟩

/-- C10: constructing the Binding Store runs `stop_all_streams` on whatever
document the persisted file yields, so every binding in the resulting
document — whatever intent or observed status a prior run left behind —
has status `"stopped"` before any loop runs. -/
theorem c10_init_stops_all (fe : Bool) (raw : Except String Storage.Doc)
    (uid : String) (b : Storage.Binding)
    (h : (Storage.storageInit fe raw).lookup uid = some b) :
    b.status = "stopped" :=
  stop_all_streams_lookup _ uid b h

/-- Witness for `c10_init_stops_all`: a store persisted with status
`"started"` comes back `"stopped"` after construction. -/
theorem c10_init_stops_all_witness :
    (Storage.storageInit true
        (.ok [("u1", ⟨some "rtsp://cam", [("a", "p.png")], "n", "w", "started"⟩)])).lookup "u1"
      = some ⟨some "rtsp://cam", [("a", "p.png")], "n", "w", "stopped"⟩
    ∧ (⟨some "rtsp://cam", [("a", "p.png")], "n", "w", "stopped"⟩ : Storage.Binding).status
      = "stopped" :=
  ⟨by decide,
    c10_init_stops_all true
      (.ok [("u1", ⟨some "rtsp://cam", [("a", "p.png")], "n", "w", "started"⟩)])
      "u1" ⟨some "rtsp://cam", [("a", "p.png")], "n", "w", "stopped"⟩ (by decide)⟩

/-- C8: for a `uid` present in the store, calling `update_status` twice in a
row with the same status leaves the persisted document — both as data and as
the exact bytes `_save` writes via `json.dump(..., indent=2)` — identical
after the second call to what it was after the first. -/
theorem c8_set_status_idempotent (d : Storage.Doc) (uid s : String)
    (h : (d.lookup uid).isSome = true) :
    (Storage.update_status (Storage.update_status d uid s).1 uid s).1
        = (Storage.update_status d uid s).1
    ∧ Storage.serializeDoc ((Storage.update_status (Storage.update_status d uid s).1 uid s).1)
        = Storage.serializeDoc ((Storage.update_status d uid s).1) := by
  have h1 : (Storage.update_status d uid s).1
      = d.map (fun p => if p.1 == uid then (p.1, { p.2 with status := s }) else p) := by
    rw [Storage.update_status, if_pos h]
  have h2 : (((Storage.update_status d uid s).1).lookup uid).isSome = true := by
    rw [h1]
    have hlk : (d.map (fun p => if p.1 == uid then (p.1, { p.2 with status := s }) else p)).lookup uid
        = (d.lookup uid).map (fun b => { b with status := s }) :=
      lookup_map_update (fun b => { b with status := s }) uid d
    rw [hlk]
    obtain ⟨b, hb⟩ := Option.isSome_iff_exists.mp h
    rw [hb]
    rfl
  have hmain : (Storage.update_status (Storage.update_status d uid s).1 uid s).1
      = (Storage.update_status d uid s).1 := by
    rw [Storage.update_status, if_pos h2]
    show ((Storage.update_status d uid s).1).map _ = _
    rw [h1]
    exact update_status_map_idem uid s d
  exact ⟨hmain, congrArg Storage.serializeDoc hmain⟩

/-- Witness for `c8_set_status_idempotent` on a one-binding store. -/
theorem c8_set_status_idempotent_witness :
    (([(("u1" : String), (⟨some "rtsp://cam", [], "n", "w", "stopped"⟩ : Storage.Binding))] :
        Storage.Doc).lookup "u1").isSome = true
    ∧ ((Storage.update_status
          (Storage.update_status [("u1", ⟨some "rtsp://cam", [], "n", "w", "stopped"⟩)]
            "u1" "need_start").1 "u1" "need_start").1
        = (Storage.update_status [("u1", ⟨some "rtsp://cam", [], "n", "w", "stopped"⟩)]
            "u1" "need_start").1
      ∧ Storage.serializeDoc
          ((Storage.update_status
            (Storage.update_status [("u1", ⟨some "rtsp://cam", [], "n", "w", "stopped"⟩)]
              "u1" "need_start").1 "u1" "need_start").1)
        = Storage.serializeDoc
            ((Storage.update_status [("u1", ⟨some "rtsp://cam", [], "n", "w", "stopped"⟩)]
              "u1" "need_start").1)) :=
  ⟨by decide,
    c8_set_status_idempotent [("u1", ⟨some "rtsp://cam", [], "n", "w", "stopped"⟩)]
      "u1" "need_start" (by decide)⟩

/-- C7: on every reconciliation tick, orphan reaping terminates only
processes whose name contains `"ffmpeg"` (case-insensitively) and whose
joined invocation arguments contain none of the `uid`s currently present in
the store; in particular it never terminates a transcoding-tool process
whose arguments contain a valid `uid`. -/
theorem c7_reap_only_unknown (procs : List Controller.ProcInfo)
    (valid_uids : List String) (q : Controller.ProcInfo)
    (hq : q ∈ Controller.kill_unknown_ffmpeg procs valid_uids) :
    Controller.strContains (Controller.strLower (q.name.getD "")) "ffmpeg" = true
    ∧ ∀ uid ∈ valid_uids,
        Controller.strContains (Controller.joinSpace q.cmdline) uid = false := by
  have hcond := (List.mem_filter.mp hq).2
  simp only [Bool.and_eq_true, Bool.not_eq_true'] at hcond
  obtain ⟨⟨-, hname⟩, hany⟩ := hcond
  refine ⟨hname, ?_⟩
  intro uid huid
  have := List.any_eq_false.mp hany uid huid
  simpa using this

/-- Witness for `c7_reap_only_unknown`: of two ffmpeg processes, one
referencing the valid uid `"u1"` and one referencing none, only the latter
is terminated, and it indeed references no valid uid. -/
theorem c7_reap_only_unknown_witness :
    (⟨77, some "ffmpeg", ["ffmpeg", "-i", "rtsp://other"]⟩ : Controller.ProcInfo)
        ∈ Controller.kill_unknown_ffmpeg
            [⟨77, some "ffmpeg", ["ffmpeg", "-i", "rtsp://other"]⟩,
             ⟨78, some "ffmpeg", ["ffmpeg", "-i", "cam", "u1_wm.m3u8"]⟩]
            ["u1"]
    ∧ (Controller.strContains
          (Controller.strLower ((⟨77, some "ffmpeg", ["ffmpeg", "-i", "rtsp://other"]⟩ :
              Controller.ProcInfo).name.getD "")) "ffmpeg" = true
        ∧ ∀ uid ∈ (["u1"] : List String),
            Controller.strContains
              (Controller.joinSpace
                (⟨77, some "ffmpeg", ["ffmpeg", "-i", "rtsp://other"]⟩ :
                    Controller.ProcInfo).cmdline) uid = false) :=
  ⟨by decide,
    c7_reap_only_unknown
      [⟨77, some "ffmpeg", ["ffmpeg", "-i", "rtsp://other"]⟩,
       ⟨78, some "ffmpeg", ["ffmpeg", "-i", "cam", "u1_wm.m3u8"]⟩]
      ["u1"] ⟨77, some "ffmpeg", ["ffmpeg", "-i", "rtsp://other"]⟩ (by decide)⟩

/-- C4 counterexample: for the one-watermark binding the code emits the
stage `[1:v]scale=iw:ih[wm0]` — whose `iw`/`ih` arguments are the
dimensions of its own input `[1:v]`, the watermark — so a 128x64 watermark
stays 128x64 and is not scaled to a 1920x1080 source frame. -/
theorem c4_scale_counterexample :
    Controller.build_filter ["logo.png"]
      = ("[1:v]scale=iw:ih[wm0];[0:v][wm0]overlay=0:0:format=auto[v0]", "[v0]")
    ∧ Controller.scaleStageOutSize (128, 64) = (128, 64)
    ∧ ((128, 64) : Nat × Nat) ≠ (1920, 1080) := by
  refine ⟨by decide, rfl, by decide⟩

/-- C4 (amended): for every non-empty watermark map the constructed chain
consists, for each watermark `i` in order, of the stage
`[(i+1):v]scale=iw:ih[wm i]` — an identity scale that keeps the watermark at
its own size (not the source frame size) — followed by
`(labelIn i)[wm i]overlay=0:0:format=auto[v i]`, overlaying at the origin
onto the running composite and yielding final composite label `[v (n-1)]`;
concretely shown for one and for two watermarks, independent of the path
strings. -/
theorem c4_filter_chain_structure :
    (∀ (wms : List String) (i : Nat),
        Controller.build_filterAux i (Controller.labelIn i) wms
          = (String.join ((List.range' i wms.length).map Controller.chainStage),
             Controller.labelIn (i + wms.length)))
    ∧ (∀ s : Nat × Nat, Controller.scaleStageOutSize s = s)
    ∧ (∀ a : String,
        Controller.build_filter [a]
          = ("[1:v]scale=iw:ih[wm0];[0:v][wm0]overlay=0:0:format=auto[v0]", "[v0]"))
    ∧ (∀ a b : String,
        Controller.build_filter [a, b]
          = ("[1:v]scale=iw:ih[wm0];[0:v][wm0]overlay=0:0:format=auto[v0];[2:v]scale=iw:ih[wm1];[v0][wm1]overlay=0:0:format=auto[v1]",
             "[v1]")) := by
  refine ⟨fun wms i => build_filterAux_eq wms i, fun s => rfl, fun a => ?_, fun a b => ?_⟩
  · rfl
  · rfl

/-- C5: the constructed worker command's `-i` inputs are exactly the source
url followed by one input per watermark path in the map's insertion order
(provided none of the tool path and playlist arguments is itself the literal
`-i`); concretely, for the map `a ↦ p1.png, b ↦ p2.png` the full command
contains the two watermark inputs in the order `a`, `b` and a filter graph
that overlays `[1:v]` (watermark `a`) before `[2:v]` (watermark `b`). -/
theorem c5_input_order (ffp url : String) (wms : List (String × String))
    (hn hw : String) (gpu : Bool)
    (hffp : ffp ≠ "-i") (hhn : hn ≠ "-i") (hhw : hw ≠ "-i") :
    Controller.extractInputs (Controller.start_cmd ffp url wms hn hw gpu)
        = url :: wms.map Prod.snd
    ∧ Controller.start_cmd "ffmpeg" "rtsp://cam/1" [("a", "p1.png"), ("b", "p2.png")]
        "no.m3u8" "wm.m3u8" false
      = ["ffmpeg", "-loglevel", "error", "-i", "rtsp://cam/1", "-i", "p1.png", "-i", "p2.png",
         "-filter_complex",
         "[1:v]scale=iw:ih[wm0];[0:v][wm0]overlay=0:0:format=auto[v0];[2:v]scale=iw:ih[wm1];[v0][wm1]overlay=0:0:format=auto[v1]",
         "-map", "[v1]", "-map", "0:a?",
         "-c:v", "libx264", "-preset", "medium", "-crf", "20",
         "-r", "10", "-b:v", "3000k", "-maxrate", "4000k", "-bufsize", "10000k",
         "-c:a", "aac", "-f", "hls", "-hls_time", "5", "-hls_list_size", "5",
         "-hls_flags", "delete_segments", "wm.m3u8",
         "-map", "0:v", "-map", "0:a?",
         "-c:v", "libx264", "-preset", "medium", "-crf", "20",
         "-r", "10", "-b:v", "3000k", "-maxrate", "4000k", "-bufsize", "10000k",
         "-c:a", "aac", "-f", "hls", "-hls_time", "5", "-hls_list_size", "5",
         "-hls_flags", "delete_segments", "no.m3u8"] := by
  constructor
  · have hhead : ∀ x ∈ ([ffp, "-loglevel", "error"] : List String), x ≠ "-i" := by
      intro x hx
      rcases List.mem_cons.mp hx with rfl | hx
      · exact hffp
      · rcases List.mem_cons.mp hx with rfl | hx
        · decide
        · rcases List.mem_cons.mp hx with rfl | hx
          · decide
          · cases hx
    cases hwp : wms.map Prod.snd with
    | nil =>
      have hcmd : Controller.start_cmd ffp url wms hn hw gpu
          = [ffp, "-loglevel", "error"]
            ++ ("-i" :: url :: ((wms.map Prod.snd).flatMap (fun wm => ["-i", wm])
              ++ (["-map", "0:v", "-map", "0:a?"] ++ Controller.hls_output_args hn gpu))) := by
        simp [Controller.start_cmd, hwp]
      rw [hcmd, extractInputs_append_ne _ _ hhead, hwp]
      show url :: Controller.extractInputs
          (([] : List String).flatMap (fun wm => ["-i", wm])
            ++ (["-map", "0:v", "-map", "0:a?"] ++ Controller.hls_output_args hn gpu)) = _
      rw [extractInputs_flatMap]
      rw [extractInputs_none _ (by
        intro x hx
        rcases List.mem_append.mp hx with hx | hx
        · rcases List.mem_cons.mp hx with rfl | hx
          · decide
          · rcases List.mem_cons.mp hx with rfl | hx
            · decide
            · rcases List.mem_cons.mp hx with rfl | hx
              · decide
              · rcases List.mem_cons.mp hx with rfl | hx
                · decide
                · cases hx
        · exact hls_output_args_ne hn gpu hhn x hx)]
      simp
    | cons p1 prest =>
      have hne : (Controller.build_filter (p1 :: prest)).1 ≠ "-i" :=
        ne_dash_i_of_head (build_filter_head p1 prest)
      have hsnd : (Controller.build_filter (p1 :: prest)).2
          = Controller.labelIn (prest.length + 1) := by
        show (Controller.build_filterAux 0 (Controller.labelIn 0) (p1 :: prest)).2 = _
        rw [build_filterAux_eq]
        simp
      have hne2 : (Controller.build_filter (p1 :: prest)).2 ≠ "-i" := by
        rw [hsnd]
        exact labelIn_succ_ne prest.length
      have hcmd : Controller.start_cmd ffp url wms hn hw gpu
          = [ffp, "-loglevel", "error"]
            ++ ("-i" :: url :: ((wms.map Prod.snd).flatMap (fun wm => ["-i", wm])
              ++ (["-filter_complex", (Controller.build_filter (p1 :: prest)).1,
                   "-map", (Controller.build_filter (p1 :: prest)).2, "-map", "0:a?"]
                ++ (Controller.hls_output_args hw gpu
                  ++ (["-map", "0:v", "-map", "0:a?"]
                    ++ Controller.hls_output_args hn gpu))))) := by
        simp [Controller.start_cmd, hwp]
      rw [hcmd, extractInputs_append_ne _ _ hhead, hwp]
      show url :: Controller.extractInputs
          ((p1 :: prest).flatMap (fun wm => ["-i", wm])
            ++ (["-filter_complex", (Controller.build_filter (p1 :: prest)).1,
                 "-map", (Controller.build_filter (p1 :: prest)).2, "-map", "0:a?"]
              ++ (Controller.hls_output_args hw gpu
                ++ (["-map", "0:v", "-map", "0:a?"]
                  ++ Controller.hls_output_args hn gpu)))) = _
      rw [extractInputs_flatMap]
      rw [extractInputs_none _ (by
        intro x hx
        rcases List.mem_append.mp hx with hx | hx
        · rcases List.mem_cons.mp hx with rfl | hx
          · decide
          · rcases List.mem_cons.mp hx with rfl | hx
            · exact hne
            · rcases List.mem_cons.mp hx with rfl | hx
              · decide
              · rcases List.mem_cons.mp hx with rfl | hx
                · exact hne2
                · rcases List.mem_cons.mp hx with rfl | hx
                  · decide
                  · rcases List.mem_cons.mp hx with rfl | hx
                    · decide
                    · cases hx
        · rcases List.mem_append.mp hx with hx | hx
          · exact hls_output_args_ne hw gpu hhw x hx
          · rcases List.mem_append.mp hx with hx | hx
            · rcases List.mem_cons.mp hx with rfl | hx
              · decide
              · rcases List.mem_cons.mp hx with rfl | hx
                · decide
                · rcases List.mem_cons.mp hx with rfl | hx
                  · decide
                  · rcases List.mem_cons.mp hx with rfl | hx
                    · decide
                    · cases hx
            · exact hls_output_args_ne hn gpu hhn x hx)]
      simp
  · decide

/-- Witness for `c5_input_order` at the two-watermark map `a ↦ p1.png,
b ↦ p2.png`. -/
theorem c5_input_order_witness :
    (("ffmpeg" : String) ≠ "-i" ∧ ("no.m3u8" : String) ≠ "-i" ∧ ("wm.m3u8" : String) ≠ "-i")
    ∧ Controller.extractInputs
        (Controller.start_cmd "ffmpeg" "rtsp://cam/1" [("a", "p1.png"), ("b", "p2.png")]
          "no.m3u8" "wm.m3u8" false)
      = ["rtsp://cam/1", "p1.png", "p2.png"] :=
  ⟨⟨by decide, by decide, by decide⟩,
    (c5_input_order "ffmpeg" "rtsp://cam/1" [("a", "p1.png"), ("b", "p2.png")]
      "no.m3u8" "wm.m3u8" false (by decide) (by decide) (by decide)).1⟩

/-- C6: for one `uid` evaluated by the Change Detector (watermark keys
unique, as Python dicts guarantee): a `need_restart` transition is issued
exactly when a change was detected and the current status is none of
`need_stop`/`stopped`/`stopping`; whenever a change was detected the
snapshot caches are refreshed to the freshly observed paths, fingerprints
and url — whether or not a transition was issued; and re-evaluating the
same `uid` on the post-evaluation caches under an unchanged store and
filesystem detects no change, so the same content state is never flagged
twice. -/
theorem c6_change_detector_contract (fs : String → Option String)
    (wms : List (String × String)) (url : Option String) (status : String)
    (cp : Option (List (String × String))) (cm : List (String × Option String))
    (cu : Option String) (hnd : (wms.map Prod.fst).Nodup) :
    ((Controller.monitor_uid fs wms url status cp cm cu).restartIssued = true
        ↔ ((Controller.monitor_uid fs wms url status cp cm cu).changed = true
            ∧ status ≠ "need_stop" ∧ status ≠ "stopped" ∧ status ≠ "stopping"))
    ∧ ((Controller.monitor_uid fs wms url status cp cm cu).changed = true →
        (Controller.monitor_uid fs wms url status cp cm cu).newPaths = some wms
        ∧ (Controller.monitor_uid fs wms url status cp cm cu).newMd5
            = wms.map (fun p => (p.1, fs p.2))
        ∧ (Controller.monitor_uid fs wms url status cp cm cu).newUrl = url)
    ∧ (Controller.monitor_uid fs wms url status
          (Controller.monitor_uid fs wms url status cp cm cu).newPaths
          (Controller.monitor_uid fs wms url status cp cm cu).newMd5
          (Controller.monitor_uid fs wms url status cp cm cu).newUrl).changed = false := by
  by_cases hc : Controller.mon_changed fs wms url cp cm cu = true
  · have hm : Controller.monitor_uid fs wms url status cp cm cu
        = { changed := true
            restartIssued := !(status == "need_stop" || status == "stopped" || status == "stopping")
            newPaths := some wms
            newMd5 := wms.map (fun p => (p.1, fs p.2))
            newUrl := url } := by
      rw [Controller.monitor_uid, if_pos hc]
    refine ⟨?_, ?_, ?_⟩
    · rw [hm]
      simp [-Bool.or_eq_true, Bool.or_eq_true (status == "need_stop" || status == "stopped"),
        Bool.or_eq_true (status == "need_stop")]
      tauto
    · intro _
      rw [hm]
      exact ⟨rfl, rfl, rfl⟩
    · rw [hm]
      show (Controller.monitor_uid fs wms url status (some wms)
        (wms.map (fun p => (p.1, fs p.2))) url).changed = false
      rw [Controller.monitor_uid, if_neg (by rw [mon_changed_fresh fs wms url hnd]; simp)]
  · have hm : Controller.monitor_uid fs wms url status cp cm cu
        = { changed := false, restartIssued := false
            newPaths := cp, newMd5 := cm, newUrl := cu } := by
      rw [Controller.monitor_uid, if_neg hc]
    refine ⟨?_, ?_, ?_⟩
    · rw [hm]
      simp
    · intro h
      rw [hm] at h
      cases h
    · rw [hm]
      show (Controller.monitor_uid fs wms url status cp cm cu).changed = false
      rw [Controller.monitor_uid, if_neg hc]

/-- Witness for `c6_change_detector_contract`: a freshly bound `uid` (empty
caches) with one watermark on a running stream. -/
theorem c6_change_detector_contract_witness :
    (([(("a" : String), ("wm1.png" : String))].map Prod.fst).Nodup)
    ∧ (((Controller.monitor_uid (fun p => if p == "wm1.png" then some "d41d8cd9" else none)
          [("a", "wm1.png")] (some "rtsp://cam/1") "started" none [] none).restartIssued = true
        ↔ ((Controller.monitor_uid (fun p => if p == "wm1.png" then some "d41d8cd9" else none)
              [("a", "wm1.png")] (some "rtsp://cam/1") "started" none [] none).changed = true
            ∧ ("started" : String) ≠ "need_stop" ∧ ("started" : String) ≠ "stopped"
            ∧ ("started" : String) ≠ "stopping"))
      ∧ ((Controller.monitor_uid (fun p => if p == "wm1.png" then some "d41d8cd9" else none)
            [("a", "wm1.png")] (some "rtsp://cam/1") "started" none [] none).changed = true →
          (Controller.monitor_uid (fun p => if p == "wm1.png" then some "d41d8cd9" else none)
              [("a", "wm1.png")] (some "rtsp://cam/1") "started" none [] none).newPaths
            = some [("a", "wm1.png")]
          ∧ (Controller.monitor_uid (fun p => if p == "wm1.png" then some "d41d8cd9" else none)
                [("a", "wm1.png")] (some "rtsp://cam/1") "started" none [] none).newMd5
            = [("a", "wm1.png")].map (fun p =>
                (p.1, (fun q => if q == "wm1.png" then some "d41d8cd9" else none) p.2))
          ∧ (Controller.monitor_uid (fun p => if p == "wm1.png" then some "d41d8cd9" else none)
                [("a", "wm1.png")] (some "rtsp://cam/1") "started" none [] none).newUrl
            = some "rtsp://cam/1")
      ∧ (Controller.monitor_uid (fun p => if p == "wm1.png" then some "d41d8cd9" else none)
            [("a", "wm1.png")] (some "rtsp://cam/1") "started"
            (Controller.monitor_uid (fun p => if p == "wm1.png" then some "d41d8cd9" else none)
              [("a", "wm1.png")] (some "rtsp://cam/1") "started" none [] none).newPaths
            (Controller.monitor_uid (fun p => if p == "wm1.png" then some "d41d8cd9" else none)
              [("a", "wm1.png")] (some "rtsp://cam/1") "started" none [] none).newMd5
            (Controller.monitor_uid (fun p => if p == "wm1.png" then some "d41d8cd9" else none)
              [("a", "wm1.png")] (some "rtsp://cam/1") "started" none [] none).newUrl).changed
          = false) :=
  ⟨by decide,
    c6_change_detector_contract (fun p => if p == "wm1.png" then some "d41d8cd9" else none)
      [("a", "wm1.png")] (some "rtsp://cam/1") "started" none [] none (by decide)⟩
